import Mathlib

/-!
Verification development for the ParasiticTraceroute repository
(single source file `nfqTrace.go`).

The Go source is shallowly embedded below.  Machine bytes are `Nat`
values kept below 256 by construction; the IPv4 TTL field is a Go
`uint8`, so every increment of it is taken modulo 256; Go `int`
counters (`ttlRepeat`, `ttlRepeatMax`, `mangleFreq`, `count`) only
ever hold non-negative values on the paths modelled here and are
embedded as `Nat` (the one comparison against `ttlRepeatMax - 1`,
which in Go is an `int` subtraction, is embedded as the equivalent
`ttlRepeat + 1 = ttlRepeatMax`; the two sides agree for every
non-negative `ttlRepeat`, including the Go corner case
`ttlRepeatMax = 0`, where Go compares against `-1` and never
succeeds while here `ttlRepeat + 1 = 0` never succeeds).

The external packet codec (gopacket) is out of scope for the
repository and is embedded through the interface the spec gives it:
decoding is an explicit executable byte-level routine mirroring the
decoder's documented checks, and serialization produces an explicit
byte image whose only property used anywhere is that the IPv4 TTL
sits at byte offset 8, as on the wire.

Go channel operations of the engine (`stopTimerChannel`,
`restartTimerChannel`, both unbuffered, plus the observer's `done`
channel) are embedded as explicit state: a send on a closed channel
or a close of a closed channel is a Go runtime panic, a send nobody
receives blocks the sending goroutine forever.  Faults are surfaced
as an `Option RunFault` result component.
-/

/-- A Go runtime fault observable in this embedding: `panicked` is a
runtime panic (send on a closed channel, close of a closed channel,
integer division by zero, slice bounds out of range), `deadlocked` is
a channel send that can never be received. -/
inductive RunFault
  | panicked
  | deadlocked
deriving DecidableEq, Repr

/-- Distinguished Go runtime panic of `getPacketFlow` (nfqTrace.go line
423): `packet[len(packet)-8:]` with `len(packet) < 8` is a slice
bounds-out-of-range panic. -/
inductive GoPanicKind
  | sliceOutOfRange
deriving DecidableEq, Repr

/-- IPv4 header as decoded by the external packet codec (spec section
4.1).  `srcIP`/`dstIP` are the four address bytes, `payload` the bytes
after the header (truncated to the total-length field when the buffer
is longer). -/
structure IPv4Header where
  ihl : Nat
  totalLength : Nat
  ttl : Nat
  protocol : Nat
  srcIP : List Nat
  dstIP : List Nat
  payload : List Nat
deriving DecidableEq, Repr

/-- TCP header as decoded by the external packet codec. -/
structure TCPHeader where
  srcPort : Nat
  dstPort : Nat
  dataOffset : Nat
  payload : List Nat
deriving DecidableEq, Repr

/-- A parsed diverted packet (`netfilter.NFPacket.Packet`): the source
only ever asks it for its IPv4 and TCP layers, which may be absent. -/
structure GoPacket where
  ipLayer : Option IPv4Header
  tcpLayer : Option TCPHeader
deriving DecidableEq, Repr

/-- A `gopacket.Flow`: an endpoint-type tag together with the raw
source and destination endpoint bytes. -/
structure GoFlow where
  epType : Nat
  src : List Nat
  dst : List Nat
deriving DecidableEq, Repr

/-- Endpoint-type tag of IPv4 endpoints. -/
def endpointIPv4 : Nat := 1

/-- Endpoint-type tag of TCP port endpoints. -/
def endpointTCPPort : Nat := 4

/-- Big-endian two-byte image of a port number, the raw form of a
`layers.TCPPort` endpoint. -/
def portBytes (p : Nat) : List Nat := [p / 256 % 256, p % 256]

/-- `ip.NetworkFlow()` of a decoded IPv4 header. -/
def IPv4Header.networkFlow (ip : IPv4Header) : GoFlow :=
  { epType := endpointIPv4, src := ip.srcIP, dst := ip.dstIP }

/-- `tcp.TransportFlow()` of a decoded TCP header. -/
def TCPHeader.transportFlow (tcp : TCPHeader) : GoFlow :=
  { epType := endpointTCPPort, src := portBytes tcp.srcPort, dst := portBytes tcp.dstPort }

/-- `NetworkFlow()` of the decoder's IPv4 variable: the decoded header
when one was parsed, and the zero value (nil source and destination
IPs) when none was. -/
def networkFlowOfOpt : Option IPv4Header → GoFlow
  | none => { epType := endpointIPv4, src := [], dst := [] }
  | some ip => ip.networkFlow

/-- `TransportFlow()` of the decoder's TCP variable: the decoded
header when one was parsed, and the zero value (both ports 0) when
none was. -/
def transportFlowOfOpt : Option TCPHeader → GoFlow
  | none => { epType := endpointTCPPort, src := portBytes 0, dst := portBytes 0 }
  | some tcp => tcp.transportFlow

/-- `flowKey` (nfqTrace.go line 52): the pair of the network-layer and
the transport-layer `gopacket.Flow`. -/
structure flowKey where
  net : GoFlow
  trans : GoFlow
deriving DecidableEq, Repr

/-- Timer goroutine of one engine (`StartResponseTimer`, lines
279-303): `waiting` means it sits in its `select`; `selfStopBlocked`
means it called `Stop()` itself and is blocked forever sending on its
own `stopTimerChannel`; `exited` means it returned. -/
inductive TimerState
  | waiting
  | selfStopBlocked
  | exited
deriving DecidableEq, Repr

/-- `NFQueueTraceroute` (nfqTrace.go lines 234-254).  `traceResult` is
the Go map `ip.TTL -> list of ip addrs`, embedded as an association
list in key-insertion order; `timer` and `chansClosed` embed the state
of the timer goroutine and of the two control channels (both channels
are closed together, by `Stop`). -/
structure NFQueueTraceroute where
  ttl : Nat
  ttlMax : Nat
  ttlRepeat : Nat
  ttlRepeatMax : Nat
  mangleFreq : Nat
  count : Nat
  traceResult : List (Nat × List (List Nat))
  stopped : Bool
  responseTimedOut : Bool
  timer : TimerState
  chansClosed : Bool
deriving DecidableEq, Repr

/-- Go map read `m[k]` with the zero value `[]` for a missing key. -/
def lookupResult (m : List (Nat × List (List Nat))) (k : Nat) : List (List Nat) :=
  match m.find? (fun kv => kv.fst = k) with
  | some kv => kv.snd
  | none => []

/-- Go `m[k] = append(m[k], ip)` on the association list. -/
def appendResult (m : List (Nat × List (List Nat))) (k : Nat) (ip : List Nat) :
    List (Nat × List (List Nat)) :=
  if (m.find? (fun kv => kv.fst = k)).isSome then
    m.map (fun kv => if kv.fst = k then (kv.fst, kv.snd ++ [ip]) else kv)
  else m ++ [(k, [ip])]

/-- `NewNFQueueTraceroute` (lines 260-277): fresh state with `ttl = 1`,
`ttlRepeat = 1`, `count = 1`, empty results, and a freshly started
response timer (goroutine waiting in its select, channels open). -/
def NewNFQueueTraceroute (ttlMax ttlRepeatMax mangleFreq : Nat) : NFQueueTraceroute :=
  { ttl := 1
    ttlMax := ttlMax
    ttlRepeat := 1
    ttlRepeatMax := ttlRepeatMax
    mangleFreq := mangleFreq
    count := 1
    traceResult := []
    stopped := false
    responseTimedOut := false
    timer := TimerState.waiting
    chansClosed := false }

/-- `Stop` (lines 305-312): set `stopped`, send `true` on
`stopTimerChannel`, then close both control channels.  The send
panics when the channel is already closed; it is received (and the
timer goroutine returns) when the timer is waiting in its select;
with no live receiver it blocks forever. -/
def NFQueueTraceroute.Stop (n : NFQueueTraceroute) : NFQueueTraceroute × Option RunFault :=
  let n1 := { n with stopped := true }
  if n1.chansClosed then (n1, some RunFault.panicked)
  else if n1.timer = TimerState.waiting then
    ({ n1 with timer := TimerState.exited, chansClosed := true }, none)
  else (n1, some RunFault.deadlocked)

/-- The blocking send `n.restartTimerChannel <- true` (lines 332 and
338): panics on a closed channel, is received when the timer goroutine
waits in its select, and otherwise blocks the sender forever. -/
def NFQueueTraceroute.restartTimerSend (n : NFQueueTraceroute) :
    NFQueueTraceroute × Option RunFault :=
  if n.chansClosed then (n, some RunFault.panicked)
  else if n.timer = TimerState.waiting then (n, none)
  else (n, some RunFault.deadlocked)

/-- The timeout branch of `StartResponseTimer` (lines 285-293): when
the 200-second timer fires, stop if `ttl >= ttlMax` and
`ttlRepeat >= ttlRepeatMax`, else raise `responseTimedOut`.  The
`Stop()` call runs on the timer goroutine itself: it sets `stopped`
and then blocks forever sending on its own `stopTimerChannel`, so the
channels are never closed. -/
def NFQueueTraceroute.timerExpired (n : NFQueueTraceroute) : NFQueueTraceroute :=
  if n.ttlMax ≤ n.ttl ∧ n.ttlRepeatMax ≤ n.ttlRepeat then
    { n with stopped := true, timer := TimerState.selfStopBlocked }
  else { n with responseTimedOut := true }

/-- The three TTL-advance assignments (lines 329-331 and 335-337):
`ttl += 1` (a `uint8` increment, hence modulo 256), `ttlRepeat = 0`,
`responseTimedOut = false`. -/
def NFQueueTraceroute.advanceTTL (n : NFQueueTraceroute) : NFQueueTraceroute :=
  { n with ttl := (n.ttl + 1) % 256, ttlRepeat := 0, responseTimedOut := false }

/-- `n.ttlRepeat += 1` (line 326). -/
def NFQueueTraceroute.bumpRepeat (n : NFQueueTraceroute) : NFQueueTraceroute :=
  { n with ttlRepeat := n.ttlRepeat + 1 }

/-- Lines 328-339 of `processPacket`: the two advance branches (on
`responseTimedOut`, or on `ttlRepeat == ttlRepeatMax`) both advance
the TTL and send on `restartTimerChannel`; otherwise nothing happens.
The state component is always the state reached, the fault component
reports a faulted restart send. -/
def NFQueueTraceroute.mangleStep (n1 : NFQueueTraceroute) :
    NFQueueTraceroute × Option RunFault :=
  if n1.responseTimedOut then (n1.advanceTTL).restartTimerSend
  else if n1.ttlRepeat = n1.ttlRepeatMax then (n1.advanceTTL).restartTimerSend
  else (n1, none)

/-- The state of the engine at the verdict decision point of a mangle
candidate: `ttlRepeat` already incremented (line 326) and the TTL
advance of lines 328-339 already applied when its condition held. -/
def NFQueueTraceroute.mangleCandidateState (n : NFQueueTraceroute) : NFQueueTraceroute :=
  ((n.bumpRepeat).mangleStep).fst

/-- Verdict on one diverted packet: `accept` is `NF_ACCEPT`;
`nfRepeat bytes` is `SetModifiedVerdict(NF_REPEAT, bytes)`, whose
`bytes` is `none` exactly when `serializeWithTTL` returned Go `nil`. -/
inductive Verdict
  | accept
  | nfRepeat (bytes : Option (List Nat))
deriving DecidableEq, Repr

/-- Byte image of an IPv4 header produced by the external serializer.
Only the placements used by the claims are kept: the TTL byte sits at
offset 8 and the protocol byte at offset 9, as on the wire; the
recomputed length and checksum fields of the external serializer are
not inspected by any claim and are left as the length bytes and
zeros. -/
def ipHeaderBytes (ip : IPv4Header) : List Nat :=
  [4 * 16 + ip.ihl % 16, 0, ip.totalLength / 256 % 256, ip.totalLength % 256,
   0, 0, 0, 0, ip.ttl % 256, ip.protocol % 256, 0, 0]
  ++ ip.srcIP ++ ip.dstIP

/-- Byte image of a serialized TCP header.  The source serializes only
the `ip` and `tcp` layers (line 386), so the TCP payload bytes are not
part of the output. -/
def tcpHeaderBytes (tcp : TCPHeader) : List Nat :=
  portBytes tcp.srcPort ++ portBytes tcp.dstPort

/-- `serializeWithTTL` (lines 368-390): Go `nil` (here `none`) when
the packet has no IPv4 layer, when it has no TCP layer, or when the
external serializer errors; otherwise the serialized bytes of the two
layers with the IPv4 TTL replaced.  The external serializer is
embedded as total on two well-formed decoded layers. -/
def serializeWithTTL (p : GoPacket) (ttl : Nat) : Option (List Nat) :=
  match p.ipLayer with
  | none => none
  | some ip =>
    match p.tcpLayer with
    | none => none
    | some tcp => some (ipHeaderBytes { ip with ttl := ttl } ++ tcpHeaderBytes tcp)

/-- Lines 341-351: the termination check and the verdict of a mangle
candidate.  The Go check is `n.ttl > n.ttlMax && n.ttlRepeat ==
n.ttlRepeatMax-1` over `int`; the second conjunct is embedded as
`ttlRepeat + 1 = ttlRepeatMax`.  On termination `Stop()` runs before
`SetVerdict`, so a faulting `Stop` leaves the packet with no verdict. -/
def NFQueueTraceroute.mangleVerdict (n2 : NFQueueTraceroute) (p : GoPacket) :
    NFQueueTraceroute × Option Verdict × Option RunFault :=
  if n2.ttlMax < n2.ttl ∧ n2.ttlRepeat + 1 = n2.ttlRepeatMax then
    ((n2.Stop).fst,
     if (n2.Stop).snd.isSome then none else some Verdict.accept,
     (n2.Stop).snd)
  else
    ({ n2 with count := n2.count + 1 },
     some (Verdict.nfRepeat (serializeWithTTL p n2.ttl)), none)

/-- `NFQueueTraceroute.processPacket` (lines 316-353).  The result is
the new engine state, the verdict set on the packet (at most one;
`none` means the handler faulted before setting one), and the fault if
any.  A `mangleFreq` of zero makes `count % mangleFreq` a Go
division-by-zero panic. -/
def NFQueueTraceroute.processPacket (n : NFQueueTraceroute) (p : GoPacket) :
    NFQueueTraceroute × Option Verdict × Option RunFault :=
  if n.stopped then (n, some Verdict.accept, none)
  else if n.mangleFreq = 0 then (n, none, some RunFault.panicked)
  else if n.count % n.mangleFreq = 0 then
    if ((n.bumpRepeat).mangleStep).snd.isSome then
      (((n.bumpRepeat).mangleStep).fst, none, ((n.bumpRepeat).mangleStep).snd)
    else ((n.bumpRepeat).mangleStep).fst.mangleVerdict p
  else ({ n with count := n.count + 1 }, some Verdict.accept, none)

/-- `replyReceived` (lines 357-364): append the responder IP to
`traceResult[ttl]`, then stop once `ttl == ttlMax` and at least
`ttlRepeatMax` responders are recorded at it. -/
def NFQueueTraceroute.replyReceived (n : NFQueueTraceroute) (ip : List Nat) :
    NFQueueTraceroute × Option RunFault :=
  let n1 := { n with traceResult := appendResult n.traceResult n.ttl ip }
  if n1.ttl = n1.ttlMax ∧ n1.ttlRepeatMax ≤ (lookupResult n1.traceResult n1.ttl).length then
    n1.Stop
  else (n1, none)

/-- IPv4 decode of the external codec, per its documented checks: at
least 20 bytes, a header-length nibble of at least 5 words whose
bytes are all present, and a total-length field of at least 20 that
covers the header.  The payload is the bytes after the header,
truncated to the total-length field when the buffer is longer. -/
def decodeIPv4 (data : List Nat) : Option IPv4Header :=
  if data.length < 20 then none
  else
    let ihl := data.getD 0 0 % 16
    let totalLength := data.getD 2 0 * 256 + data.getD 3 0
    if totalLength < 20 then none
    else if ihl < 5 then none
    else if totalLength < 4 * ihl then none
    else if data.length < 4 * ihl then none
    else some
      { ihl := ihl
        totalLength := totalLength
        ttl := data.getD 8 0
        protocol := data.getD 9 0
        srcIP := (data.drop 12).take 4
        dstIP := (data.drop 16).take 4
        payload :=
          if totalLength ≤ data.length then (data.take totalLength).drop (4 * ihl)
          else data.drop (4 * ihl) }

/-- TCP decode of the external codec: at least 20 bytes and a data
offset of at least 5 words whose bytes are all present.  Ports are the
first two big-endian 16-bit fields. -/
def decodeTCP (data : List Nat) : Option TCPHeader :=
  if data.length < 20 then none
  else
    let dataOffset := data.getD 12 0 / 16
    if 4 * dataOffset < 20 then none
    else if data.length < 4 * dataOffset then none
    else some
      { srcPort := data.getD 0 0 * 256 + data.getD 1 0
        dstPort := data.getD 2 0 * 256 + data.getD 3 0
        dataOffset := dataOffset
        payload := data.drop (4 * dataOffset) }

/-- Outcome of the layer-decoding loop of `getPacketFlow`: the IPv4
and TCP variables as left behind by the loop, plus whether the loop
returned an error. -/
structure DecodeForFlowOutcome where
  ip : Option IPv4Header
  tcp : Option TCPHeader
  err : Bool
deriving DecidableEq, Repr

/-- The decoding-layer loop built in `getPacketFlow` (lines 416-420),
first layer IPv4, registered decoders IPv4 and TCP: it stops
successfully when no bytes remain, and errors when the next layer is
not a registered decoder (an IPv4 protocol other than TCP, or bytes
left after the TCP header since no payload decoder is registered) or
when a layer fails to decode. -/
def decodeLayersIPv4TCP (data : List Nat) : DecodeForFlowOutcome :=
  if data.isEmpty then { ip := none, tcp := none, err := false }
  else
    match decodeIPv4 data with
    | none => { ip := none, tcp := none, err := true }
    | some ip =>
      if ip.payload.isEmpty then { ip := some ip, tcp := none, err := false }
      else if ip.protocol ≠ 6 then { ip := some ip, tcp := none, err := true }
      else
        match decodeTCP ip.payload with
        | none => { ip := some ip, tcp := none, err := true }
        | some tcp =>
          if tcp.payload.isEmpty then { ip := some ip, tcp := some tcp, err := false }
          else { ip := some ip, tcp := some tcp, err := true }

/-- `getTCPFlowFromTCPHead` (lines 402-412): read the source port from
bytes 0..2 and the destination port from bytes 2..4 of the 8-byte
remnant, big-endian, and compose a TCP endpoint pair. -/
def getTCPFlowFromTCPHead (data : List Nat) : GoFlow :=
  { epType := endpointTCPPort
    src := portBytes (data.getD 0 0 * 256 + data.getD 1 0)
    dst := portBytes (data.getD 2 0 * 256 + data.getD 3 0) }

/-- `getPacketFlow` (lines 415-428).  On a decode error the fallback
takes `packet[len(packet)-8:]`; when the packet holds fewer than 8
bytes that slice underflows, a Go runtime panic, surfaced here as
`Except.error`. -/
def getPacketFlow (packet : List Nat) : Except GoPanicKind flowKey :=
  let r := decodeLayersIPv4TCP packet
  if r.err then
    if packet.length < 8 then Except.error GoPanicKind.sliceOutOfRange
    else
      let tcpHead := packet.drop (packet.length - 8)
      Except.ok { net := networkFlowOfOpt r.ip, trans := getTCPFlowFromTCPHead tcpHead }
  else Except.ok { net := networkFlowOfOpt r.ip, trans := transportFlowOfOpt r.tcp }

/-- `NFQueueTraceObserver` restricted to what its divertor path
touches: the options and the `FlowTracker` map (an association list in
insertion order; the registry is only ever used through
`HasFlow`/`AddFlow`/`GetFlowTrace`). -/
structure NFQueueTraceObserver where
  ttlMax : Nat
  ttlRepeatMax : Nat
  mangleFreq : Nat
  flowMap : List (flowKey × NFQueueTraceroute)
deriving DecidableEq, Repr

/-- `FlowTracker.HasFlow`. -/
def hasFlow (m : List (flowKey × NFQueueTraceroute)) (k : flowKey) : Bool :=
  (m.find? (fun kv => kv.fst = k)).isSome

/-- `FlowTracker.GetFlowTrace` (`nil` for a missing key). -/
def getFlowTrace (m : List (flowKey × NFQueueTraceroute)) (k : flowKey) :
    Option NFQueueTraceroute :=
  (m.find? (fun kv => kv.fst = k)).map (fun kv => kv.snd)

/-- Store back the engine observed under key `k` (the Go map holds a
pointer, so the engine's mutations are visible in the map). -/
def setFlowTrace (m : List (flowKey × NFQueueTraceroute)) (k : flowKey)
    (n : NFQueueTraceroute) : List (flowKey × NFQueueTraceroute) :=
  m.map (fun kv => if kv.fst = k then (kv.fst, n) else kv)

/-- `NFQueueTraceObserver.processPacket` (lines 160-177): a diverted
frame without an IPv4 layer or without a TCP layer is returned from
without any verdict being set (the `return` at line 165); otherwise
the flow's engine (created on first sight) handles the packet.  The
second result component lists the verdicts set on this packet. -/
def NFQueueTraceObserver.processPacket (o : NFQueueTraceObserver) (p : GoPacket) :
    NFQueueTraceObserver × List Verdict × Option RunFault :=
  match p.ipLayer, p.tcpLayer with
  | some ip, some tcp =>
    let flow : flowKey := { net := ip.networkFlow, trans := tcp.transportFlow }
    let m :=
      if hasFlow o.flowMap flow then o.flowMap
      else o.flowMap ++ [(flow, NewNFQueueTraceroute o.ttlMax o.ttlRepeatMax o.mangleFreq)]
    match getFlowTrace m flow with
    | some n =>
      match n.processPacket p with
      | (n1, v, f) => ({ o with flowMap := setFlowTrace m flow n1 }, v.toList, f)
    | none => ({ o with flowMap := m }, [], none)
  | _, _ => (o, [], none)

/-- State of the divertor consumer goroutine launched by
`NFQueueTraceObserver.Start` (lines 138-153): whether `o.done` has
been closed, how many times `o.nfq.Close()` ran, whether the `for`
loop was exited, and whether the goroutine panicked. -/
structure ConsumerState where
  doneClosed : Bool
  nfqCloseCount : Nat
  exitedLoop : Bool
  panicked : Bool
deriving DecidableEq, Repr

/-- Consumer state right after `Start`. -/
def initialConsumer : ConsumerState :=
  { doneClosed := false, nfqCloseCount := 0, exitedLoop := false, panicked := false }

/-- One iteration of the consumer loop in which the `<-o.done` case
fires (it fires on the pending `Stop` send the first time, and
immediately on every later iteration because a receive on a closed
channel succeeds at once).  The body runs `o.nfq.Close()`, then
`close(o.done)` — a panic when `o.done` is already closed — and then
`break`, which in Go exits only the `select`, not the `for` loop, so
`exitedLoop` never becomes true. -/
def consumerDoneIteration (s : ConsumerState) : ConsumerState :=
  if s.exitedLoop ∨ s.panicked then s
  else
    let s1 := { s with nfqCloseCount := s.nfqCloseCount + 1 }
    if s1.doneClosed then { s1 with panicked := true }
    else { s1 with doneClosed := true }

/-- An event delivered to one engine: a diverted packet of its flow
(`processPacket`), an ICMP time-exceeded responder IP of its flow
(`replyReceived`), or an expiry of its response timer. -/
inductive Ev
  | pkt (p : GoPacket)
  | reply (ip : List Nat)
  | timer
deriving DecidableEq, Repr

/-- A run over one engine: its state, the verdicts emitted so far in
order, and the first fault if one occurred (a Go panic kills the
process, so the run stops there). -/
structure RunSt where
  e : NFQueueTraceroute
  verdicts : List Verdict
  fault : Option RunFault
deriving DecidableEq, Repr

/-- One event step of a run.  A timer expiry can only fire while the
timer goroutine is waiting in its select. -/
def stepEv (s : RunSt) (ev : Ev) : RunSt :=
  if s.fault.isSome then s
  else
    match ev with
    | Ev.pkt p =>
      match s.e.processPacket p with
      | (n1, v, f) => { e := n1, verdicts := s.verdicts ++ v.toList, fault := f }
    | Ev.reply ip =>
      match s.e.replyReceived ip with
      | (n1, f) => { s with e := n1, fault := f }
    | Ev.timer =>
      if s.e.timer = TimerState.waiting then { s with e := s.e.timerExpired } else s

/-- Run a list of events over one engine. -/
def runEvents (s : RunSt) (evs : List Ev) : RunSt :=
  evs.foldl stepEv s

/-- A fresh run state for a fresh engine. -/
def freshRun (ttlMax ttlRepeatMax mangleFreq : Nat) : RunSt :=
  { e := NewNFQueueTraceroute ttlMax ttlRepeatMax mangleFreq, verdicts := [], fault := none }

/-- Run a list of diverted packets over one engine, keeping only the
state (used for runs with no timer firings and no replies). -/
def runPackets (n : NFQueueTraceroute) (ps : List GoPacket) : NFQueueTraceroute :=
  ps.foldl (fun m p => (m.processPacket p).fst) n

/-- A concrete decoded IPv4 header used by concrete scenarios. -/
def sampleIPv4 : IPv4Header :=
  { ihl := 5, totalLength := 40, ttl := 64, protocol := 6,
    srcIP := [10, 0, 0, 9], dstIP := [10, 0, 0, 7], payload := [] }

/-- A concrete decoded TCP header used by concrete scenarios. -/
def sampleTCP : TCPHeader :=
  { srcPort := 8080, dstPort := 443, dataOffset := 5, payload := [] }

/-- A concrete diverted IPv4+TCP packet of one flow. -/
def samplePacket : GoPacket := { ipLayer := some sampleIPv4, tcpLayer := some sampleTCP }

/-- The event schedule of the spec's scenario 1: six diverted packets
P1..P6 of one flow, two ICMP replies from 10.0.0.1 after P1-P2, two
from 10.0.0.2 after P3-P4, two from 10.0.0.3 after P5-P6. -/
def c1Events : List Ev :=
  [Ev.pkt samplePacket, Ev.pkt samplePacket,
   Ev.reply [10, 0, 0, 1], Ev.reply [10, 0, 0, 1],
   Ev.pkt samplePacket, Ev.pkt samplePacket,
   Ev.reply [10, 0, 0, 2], Ev.reply [10, 0, 0, 2],
   Ev.pkt samplePacket, Ev.pkt samplePacket,
   Ev.reply [10, 0, 0, 3], Ev.reply [10, 0, 0, 3]]

/-- The run of scenario 1 on a fresh engine configured with
`ttlMax = 3`, `ttlRepeatMax = 2`, `mangleFreq = 1`. -/
def c1Result : RunSt := runEvents (freshRun 3 2 1) c1Events

/-- The run refuting claim C2's bound: fresh engine with `ttlMax = 1`,
`ttlRepeatMax = 2`, `mangleFreq = 1`, fed a packet, a timer expiry,
and another packet. -/
def c2Run : RunSt :=
  runEvents (freshRun 1 2 1) [Ev.pkt samplePacket, Ev.timer, Ev.pkt samplePacket]

/-- A diverted frame with an IPv4 layer but no TCP layer. -/
def nonTcpPacket : GoPacket := { ipLayer := some sampleIPv4, tcpLayer := none }

/-- A freshly constructed observer with the scenario options and an
empty flow registry. -/
def freshObserver : NFQueueTraceObserver :=
  { ttlMax := 3, ttlRepeatMax := 2, mangleFreq := 1, flowMap := [] }

/-- A concrete stopped engine (a fresh engine after its first
`Stop()`). -/
def stoppedSample : NFQueueTraceroute := ((NewNFQueueTraceroute 3 2 1).Stop).fst

/-- A packet on which `serializeWithTTL` fails (returns Go `nil`):
its layers cannot be re-serialized. -/
def noLayersPacket : GoPacket := { ipLayer := none, tcpLayer := none }

/-- Inductive invariant of a fresh engine under packet-only runs (no
timer firings): the timeout flag stays clear, the TTL stays within
`ttlMax + 1`, and a live engine keeps its timer waiting, its channels
open, and — at the sentinel TTL `ttlMax + 1` — a repeat counter whose
next bump cannot reach `ttlRepeatMax` (so the sentinel TTL can never
be advanced past). -/
def C2Inv (n : NFQueueTraceroute) : Prop :=
  n.responseTimedOut = false
  ∧ 1 ≤ n.ttlMax
  ∧ n.ttlMax ≤ 254
  ∧ n.ttl ≤ n.ttlMax + 1
  ∧ (n.stopped = false →
      n.timer = TimerState.waiting
      ∧ n.chansClosed = false
      ∧ (n.ttl = n.ttlMax + 1 → n.ttlRepeat + 1 ≠ n.ttlRepeatMax))

/-- RFC 792 short payload of the spec's scenario 5: a 20-byte inner
IPv4 header (protocol TCP, source 10.0.0.9, destination 10.0.0.7)
followed by the first 8 bytes of the TCP header (source port 8080,
destination port 443). -/
def c7Payload : List Nat :=
  [69, 0, 0, 28, 0, 0, 0, 0, 64, 6, 0, 0, 10, 0, 0, 9, 10, 0, 0, 7,
   31, 144, 1, 187, 0, 0, 0, 1]

/-- Claim C1: with `ttl_max=3, ttl_repeat_max=2, mangle_freq=1`, the
claim expects verdicts REPEAT(ttl=1), REPEAT(ttl=1), REPEAT(ttl=2),
REPEAT(ttl=2), REPEAT(ttl=3), REPEAT(ttl=3).  Evaluating the code on
that scenario: because the engine starts with `ttlRepeat = 1` and
advances the TTL before mangling, the verdicts are REPEAT(ttl=2),
REPEAT(ttl=2), REPEAT(ttl=3), REPEAT(ttl=3), and — the two replies
after P4 having stopped the engine — ACCEPT, ACCEPT; TTL 1 is never
probed.  The engine does end stopped, and the first reply injected
after P6 makes `replyReceived` call `Stop()` on the already-stopped
engine, a send on a closed channel, i.e. a Go panic. -/
theorem c1_scenario_verdicts :
    c1Result.verdicts =
      [Verdict.nfRepeat (serializeWithTTL samplePacket 2),
       Verdict.nfRepeat (serializeWithTTL samplePacket 2),
       Verdict.nfRepeat (serializeWithTTL samplePacket 3),
       Verdict.nfRepeat (serializeWithTTL samplePacket 3),
       Verdict.accept, Verdict.accept]
    ∧ c1Result.e.stopped = true
    ∧ c1Result.fault = some RunFault.panicked
    ∧ c1Result.verdicts ≠
      [Verdict.nfRepeat (serializeWithTTL samplePacket 1),
       Verdict.nfRepeat (serializeWithTTL samplePacket 1),
       Verdict.nfRepeat (serializeWithTTL samplePacket 2),
       Verdict.nfRepeat (serializeWithTTL samplePacket 2),
       Verdict.nfRepeat (serializeWithTTL samplePacket 3),
       Verdict.nfRepeat (serializeWithTTL samplePacket 3)] := by decide

/-- Claim C2, counterexample: with `ttlMax = 1`, `ttlRepeatMax = 2`,
`mangleFreq = 1`, the first packet advances the TTL to
`ttlMax + 1 = 2`; the timer expiry then sets `responseTimedOut`
(its stop condition needs `ttlRepeat >= ttlRepeatMax`, but the advance
reset `ttlRepeat` to 0); the next packet advances the TTL again, to
`3 > ttlMax + 1`.  So `ttl` is not bounded by `ttlMax + 1` under
interleaved timer firings. -/
theorem c2_ttl_bound_counterexample :
    c2Run.e.ttl = 3 ∧ c2Run.e.ttlMax + 1 = 2 ∧ ¬ c2Run.e.ttl ≤ c2Run.e.ttlMax + 1 := by
  decide

/-- Claim C3: the claim says a diverted frame that is not IPv4+TCP is
released with an ACCEPT verdict.  Evaluating the dispatcher on such a
frame: `NFQueueTraceObserver.processPacket` returns at line 165
without setting any verdict at all — zero verdicts, not one ACCEPT —
while, as claimed, no engine is created (the registry is unchanged). -/
theorem c3_non_tcp_gets_no_verdict :
    freshObserver.processPacket nonTcpPacket = (freshObserver, [], none)
    ∧ (freshObserver.processPacket nonTcpPacket).snd.fst.length ≠ 1 := by decide

/-- Claim C4: once `stopped` is set, `processPacket` returns the
ACCEPT verdict and leaves the engine state unchanged (the stopped
branch at lines 318-321 returns before any field is touched, so in
particular every field other than `count` is unchanged — and in fact
`count` is unchanged too, the early return preceding the increment at
line 352). -/
theorem c4_stopped_accept (n : NFQueueTraceroute) (p : GoPacket) (h : n.stopped = true) :
    n.processPacket p = (n, some Verdict.accept, none) := by
  simp [NFQueueTraceroute.processPacket, h]

/-- Witness for `c4_stopped_accept` at a concrete stopped engine. -/
theorem c4_stopped_accept_witness :
    stoppedSample.stopped = true
    ∧ stoppedSample.processPacket samplePacket = (stoppedSample, some Verdict.accept, none) :=
  ⟨by decide, c4_stopped_accept stoppedSample samplePacket (by decide)⟩

/-- Claim C5: the claim says `stop()` is idempotent and safe from both
the processing and the timer path.  Evaluating the code: the first
`Stop()` on a fresh engine succeeds (the timer receives the signal and
the channels are closed), but a second `Stop()` sends on the
already-closed `stopTimerChannel` — a Go runtime panic, not a no-op.
And a `Stop()` issued from the timer goroutine itself blocks forever
on its own channel, so the channels are never closed. -/
theorem c5_double_stop_panics :
    ((NewNFQueueTraceroute 3 2 1).Stop).snd = none
    ∧ ((NewNFQueueTraceroute 3 2 1).Stop).fst.stopped = true
    ∧ ((NewNFQueueTraceroute 3 2 1).Stop).fst.chansClosed = true
    ∧ (((NewNFQueueTraceroute 3 2 1).Stop).fst.Stop).snd = some RunFault.panicked
    ∧ (NewNFQueueTraceroute 1 1 1).timerExpired.timer = TimerState.selfStopBlocked := by
  decide

/-- Claim C8: when the response timer fires on a live engine, if
`ttl >= ttlMax` and `ttlRepeat >= ttlRepeatMax` the engine is stopped,
and otherwise `responseTimedOut` is set and the engine is not
stopped (lines 285-293). -/
theorem c8_timer_expiry (n : NFQueueTraceroute) (h : n.stopped = false) :
    ((n.ttlMax ≤ n.ttl ∧ n.ttlRepeatMax ≤ n.ttlRepeat) →
       (n.timerExpired).stopped = true)
    ∧ (¬ (n.ttlMax ≤ n.ttl ∧ n.ttlRepeatMax ≤ n.ttlRepeat) →
       (n.timerExpired).responseTimedOut = true ∧ (n.timerExpired).stopped = false) := by
  refine ⟨fun hc => ?_, fun hc => ?_⟩
  · simp [NFQueueTraceroute.timerExpired, hc]
  · simp [NFQueueTraceroute.timerExpired, hc, h]

/-- Witness for `c8_timer_expiry`: a fresh engine with
`ttlMax = ttlRepeatMax = 1` satisfies the stop condition, a fresh
engine with `ttlMax = 3, ttlRepeatMax = 2` does not. -/
theorem c8_timer_expiry_witness :
    ((NewNFQueueTraceroute 1 1 1).stopped = false
       ∧ (NewNFQueueTraceroute 1 1 1).timerExpired.stopped = true)
    ∧ ((NewNFQueueTraceroute 3 2 1).stopped = false
       ∧ (NewNFQueueTraceroute 3 2 1).timerExpired.responseTimedOut = true
       ∧ (NewNFQueueTraceroute 3 2 1).timerExpired.stopped = false) :=
  ⟨⟨rfl, (c8_timer_expiry (NewNFQueueTraceroute 1 1 1) rfl).1 (by decide)⟩,
   ⟨rfl, (c8_timer_expiry (NewNFQueueTraceroute 3 2 1) rfl).2 (by decide)⟩⟩

/-- Claim C9: the claim says that after `Stop()` the divertor consumer
loop exits and performs no further iterations.  Evaluating the
consumer loop: the `break` at line 149 exits only the `select`, not
the `for` loop, so after handling the stop signal (closing the
divertor and `o.done`) the loop runs another iteration, immediately
receives on the now-closed `done` channel, closes the divertor a
second time and panics closing the already-closed `done` channel. -/
theorem c9_consumer_loop_not_exited :
    (consumerDoneIteration initialConsumer).exitedLoop = false
    ∧ (consumerDoneIteration initialConsumer).doneClosed = true
    ∧ (consumerDoneIteration initialConsumer).nfqCloseCount = 1
    ∧ (consumerDoneIteration (consumerDoneIteration initialConsumer)).panicked = true
    ∧ (consumerDoneIteration (consumerDoneIteration initialConsumer)).nfqCloseCount = 2 := by
  decide

/-- Claim C6, counterexample: a fresh engine (a mangle candidate,
`count % mangleFreq = 0`) handed a packet whose serialization fails
emits `SetModifiedVerdict(NF_REPEAT, nil)` — a REPEAT verdict carrying
nil bytes — not the ACCEPT verdict the claim states. -/
theorem c6_serialize_failure_counterexample :
    serializeWithTTL noLayersPacket 2 = none
    ∧ ((NewNFQueueTraceroute 3 2 1).processPacket noLayersPacket).snd.fst
        = some (Verdict.nfRepeat none)
    ∧ some (Verdict.nfRepeat none) ≠ some Verdict.accept := by decide

/-- Claim C10, counterexample: on the one-byte input `[0]` the
IPv4+TCP decode fails, and `getPacketFlow` does not return a flow
key: its fallback slice `packet[len(packet)-8:]` underflows and the
extraction aborts with a Go slice-bounds panic. -/
theorem c10_short_input_counterexample :
    (decodeLayersIPv4TCP [0]).err = true
    ∧ ([0] : List Nat).length < 8
    ∧ getPacketFlow [0] = Except.error GoPanicKind.sliceOutOfRange :=
  ⟨by decide, by decide, rfl⟩

/-- A send on `restartTimerChannel` while the channels are open and
the timer goroutine waits in its select succeeds and changes
nothing. -/
theorem restartTimerSend_open (n : NFQueueTraceroute) (h1 : n.chansClosed = false)
    (h2 : n.timer = TimerState.waiting) : n.restartTimerSend = (n, none) := by
  simp [NFQueueTraceroute.restartTimerSend, h1, h2]

/-- A first `Stop` while the channels are open and the timer waits
succeeds: the timer exits and the channels are closed. -/
theorem Stop_open (n : NFQueueTraceroute) (h1 : n.chansClosed = false)
    (h2 : n.timer = TimerState.waiting) :
    n.Stop =
      ({ n with stopped := true, timer := TimerState.exited, chansClosed := true }, none) := by
  simp [NFQueueTraceroute.Stop, h1, h2]

/-- `Stop` never changes the TTL. -/
theorem Stop_fst_ttl (n : NFQueueTraceroute) : ((n.Stop).fst).ttl = n.ttl := by
  simp only [NFQueueTraceroute.Stop]
  split_ifs <;> simp

/-- `Stop` never changes the configured `ttlMax`. -/
theorem Stop_fst_ttlMax (n : NFQueueTraceroute) : ((n.Stop).fst).ttlMax = n.ttlMax := by
  simp only [NFQueueTraceroute.Stop]
  split_ifs <;> simp

/-- `restartTimerSend` never changes the state. -/
theorem restartTimerSend_fst (n : NFQueueTraceroute) : (n.restartTimerSend).fst = n := by
  simp only [NFQueueTraceroute.restartTimerSend]
  split_ifs <;> simp

/-- The state at the verdict decision point of a mangle candidate is
either the state with `ttlRepeat` bumped, or that state with the TTL
advanced. -/
theorem mangleStep_fst (n1 : NFQueueTraceroute) :
    ((n1.mangleStep).fst) = n1 ∨ ((n1.mangleStep).fst) = n1.advanceTTL := by
  simp only [NFQueueTraceroute.mangleStep]
  split_ifs <;> simp [restartTimerSend_fst]

/-- `mangleVerdict` never changes the TTL. -/
theorem mangleVerdict_fst_ttl (n2 : NFQueueTraceroute) (p : GoPacket) :
    (((n2.mangleVerdict p)).fst).ttl = n2.ttl := by
  simp only [NFQueueTraceroute.mangleVerdict]
  split_ifs <;> simp [Stop_fst_ttl]

/-- `mangleVerdict` never changes the configured `ttlMax`. -/
theorem mangleVerdict_fst_ttlMax (n2 : NFQueueTraceroute) (p : GoPacket) :
    (((n2.mangleVerdict p)).fst).ttlMax = n2.ttlMax := by
  simp only [NFQueueTraceroute.mangleVerdict]
  split_ifs <;> simp [Stop_fst_ttlMax]

/-- `processPacket` never changes the configured `ttlMax`. -/
theorem processPacket_ttlMax (n : NFQueueTraceroute) (p : GoPacket) :
    ((n.processPacket p).fst).ttlMax = n.ttlMax := by
  have hms : (((n.bumpRepeat).mangleStep).fst).ttlMax = n.ttlMax := by
    rcases mangleStep_fst (n.bumpRepeat) with hc | hc <;> rw [hc] <;>
      simp [NFQueueTraceroute.advanceTTL, NFQueueTraceroute.bumpRepeat]
  simp only [NFQueueTraceroute.processPacket]
  split_ifs <;> simp [mangleVerdict_fst_ttlMax, hms]

/-- After `processPacket` the TTL is either unchanged or the `uint8`
increment of the old one. -/
theorem processPacket_ttl_cases (n : NFQueueTraceroute) (p : GoPacket) :
    ((n.processPacket p).fst).ttl = n.ttl
    ∨ ((n.processPacket p).fst).ttl = (n.ttl + 1) % 256 := by
  have hms : (((n.bumpRepeat).mangleStep).fst).ttl = n.ttl
      ∨ (((n.bumpRepeat).mangleStep).fst).ttl = (n.ttl + 1) % 256 := by
    rcases mangleStep_fst (n.bumpRepeat) with hc | hc <;> rw [hc] <;>
      simp [NFQueueTraceroute.advanceTTL, NFQueueTraceroute.bumpRepeat]
  simp only [NFQueueTraceroute.processPacket]
  split_ifs <;> simp [mangleVerdict_fst_ttl, hms]

/-- As long as the TTL cannot wrap, `processPacket` never decreases
it. -/
theorem processPacket_ttl_mono (n : NFQueueTraceroute) (p : GoPacket) (h : n.ttl ≤ 254) :
    n.ttl ≤ ((n.processPacket p).fst).ttl := by
  rcases processPacket_ttl_cases n p with hc | hc <;> rw [hc]
  rw [Nat.mod_eq_of_lt (by omega)]
  omega

/-- `replyReceived` never changes the TTL. -/
theorem replyReceived_ttl (n : NFQueueTraceroute) (ip : List Nat) :
    ((n.replyReceived ip).fst).ttl = n.ttl := by
  simp only [NFQueueTraceroute.replyReceived]
  split_ifs <;> simp [Stop_fst_ttl]

/-- A timer expiry never changes the TTL. -/
theorem timerExpired_ttl (n : NFQueueTraceroute) : (n.timerExpired).ttl = n.ttl := by
  unfold NFQueueTraceroute.timerExpired
  split_ifs <;> rfl

/-- One event step never decreases the TTL while it cannot wrap. -/
theorem stepEv_ttl_mono (s : RunSt) (ev : Ev) (h : s.e.ttl ≤ 254) :
    s.e.ttl ≤ (stepEv s ev).e.ttl := by
  unfold stepEv
  by_cases hf : s.fault.isSome
  · simp [hf]
  · cases ev with
    | pkt p =>
      have hm := processPacket_ttl_mono s.e p h
      rcases hpp : s.e.processPacket p with ⟨n1, vf⟩
      rw [hpp] at hm
      simp [hf, hpp]
      exact hm
    | reply ip =>
      have hm := replyReceived_ttl s.e ip
      rcases hpp : s.e.replyReceived ip with ⟨n1, f⟩
      rw [hpp] at hm
      simp [hf, hpp]
      exact le_of_eq hm.symm
    | timer =>
      have hm := timerExpired_ttl s.e
      simp only [hf, Bool.false_eq_true, if_false]
      split_ifs <;> simp [hm]

/-- `mangleVerdict` establishes the packet-only invariant from the
invariant facts about the live state reaching it. -/
theorem C2Inv_mangleVerdict (m : NFQueueTraceroute) (p : GoPacket)
    (hto : m.responseTimedOut = false) (h1 : 1 ≤ m.ttlMax) (h254 : m.ttlMax ≤ 254)
    (hbound : m.ttl ≤ m.ttlMax + 1)
    (hw : m.timer = TimerState.waiting) (hc : m.chansClosed = false) :
    C2Inv ((m.mangleVerdict p).fst) := by
  by_cases hterm : m.ttlMax < m.ttl ∧ m.ttlRepeat + 1 = m.ttlRepeatMax
  · have hmv : (m.mangleVerdict p).fst = (m.Stop).fst := by
      simp only [NFQueueTraceroute.mangleVerdict, if_pos hterm]
    rw [hmv, Stop_open m hc hw]
    refine ⟨by simpa using hto, by simpa using h1, by simpa using h254,
      by simpa using hbound, fun habs => ?_⟩
    simp at habs
  · have hmv : (m.mangleVerdict p).fst = { m with count := m.count + 1 } := by
      simp only [NFQueueTraceroute.mangleVerdict, if_neg hterm]
    rw [hmv]
    refine ⟨by simpa using hto, by simpa using h1, by simpa using h254,
      by simpa using hbound, fun _ => ⟨by simpa using hw, by simpa using hc, fun hx => ?_⟩⟩
    simp only at hx
    intro habs
    simp only at habs
    exact hterm ⟨by omega, habs⟩

/-- `processPacket` preserves the packet-only invariant. -/
theorem C2Inv_processPacket (n : NFQueueTraceroute) (p : GoPacket) (h : C2Inv n) :
    C2Inv ((n.processPacket p).fst) := by
  obtain ⟨hto, h1, h254, hbound, hlive⟩ := h
  by_cases hs : n.stopped = true
  · have hfix : (n.processPacket p).fst = n := by
      simp [NFQueueTraceroute.processPacket, hs]
    rw [hfix]
    exact ⟨hto, h1, h254, hbound, hlive⟩
  · replace hs : n.stopped = false := by simpa using hs
    obtain ⟨hw, hc, hrep⟩ := hlive hs
    by_cases hf : n.mangleFreq = 0
    · have hfix : (n.processPacket p).fst = n := by
        simp [NFQueueTraceroute.processPacket, hs, hf]
      rw [hfix]
      exact ⟨hto, h1, h254, hbound, fun _ => ⟨hw, hc, hrep⟩⟩
    · by_cases hm : n.count % n.mangleFreq = 0
      · -- mangle candidate
        by_cases hadv : n.ttlRepeat + 1 = n.ttlRepeatMax
        · -- the repeat counter reaches the maximum: TTL advance
          have httl : n.ttl ≤ n.ttlMax := by
            rcases Nat.lt_or_ge n.ttl (n.ttlMax + 1) with hlt | hge
            · omega
            · exact absurd hadv (hrep (by omega))
          have hms : (n.bumpRepeat).mangleStep = ((n.bumpRepeat).advanceTTL, none) := by
            simp [NFQueueTraceroute.mangleStep, NFQueueTraceroute.bumpRepeat,
              NFQueueTraceroute.advanceTTL, NFQueueTraceroute.restartTimerSend, hto, hadv,
              hc, hw]
          have hpp : (n.processPacket p).fst =
              (((n.bumpRepeat).advanceTTL).mangleVerdict p).fst := by
            simp [NFQueueTraceroute.processPacket, hs, hf, hm, hms]
          rw [hpp]
          have hmod : (n.ttl + 1) % 256 = n.ttl + 1 := Nat.mod_eq_of_lt (by omega)
          refine C2Inv_mangleVerdict _ p ?_ ?_ ?_ ?_ ?_ ?_ <;>
            simp [NFQueueTraceroute.advanceTTL, NFQueueTraceroute.bumpRepeat, hmod, hw, hc] <;>
            omega
        · -- no advance: the repeat counter is merely bumped
          have hms : (n.bumpRepeat).mangleStep = (n.bumpRepeat, none) := by
            simp [NFQueueTraceroute.mangleStep, NFQueueTraceroute.bumpRepeat, hto, hadv]
          have hpp : (n.processPacket p).fst = ((n.bumpRepeat).mangleVerdict p).fst := by
            simp [NFQueueTraceroute.processPacket, hs, hf, hm, hms]
          rw [hpp]
          refine C2Inv_mangleVerdict _ p ?_ ?_ ?_ ?_ ?_ ?_ <;>
            simp [NFQueueTraceroute.bumpRepeat, hto, hw, hc, h1, h254, hbound]
      · -- not a mangle candidate: only `count` is bumped
        have hfix : (n.processPacket p).fst = { n with count := n.count + 1 } := by
          simp [NFQueueTraceroute.processPacket, hs, hf, hm]
        rw [hfix]
        exact ⟨hto, h1, h254, by simpa using hbound, fun _ => ⟨hw, hc, by simpa using hrep⟩⟩

/-- Packet-only runs preserve the invariant. -/
theorem C2Inv_runPackets (ps : List GoPacket) (n : NFQueueTraceroute) (h : C2Inv n) :
    C2Inv (runPackets n ps) := by
  induction ps generalizing n with
  | nil => exact h
  | cons p ps ih => exact ih _ (C2Inv_processPacket n p h)

/-- Packet-only runs never change the configured `ttlMax`. -/
theorem runPackets_ttlMax (ps : List GoPacket) (n : NFQueueTraceroute) :
    (runPackets n ps).ttlMax = n.ttlMax := by
  induction ps generalizing n with
  | nil => rfl
  | cons p ps ih =>
    calc (runPackets n (p :: ps)).ttlMax
        = (runPackets ((n.processPacket p).fst) ps).ttlMax := rfl
      _ = ((n.processPacket p).fst).ttlMax := ih _
      _ = n.ttlMax := processPacket_ttlMax n p

/-- Claim C2 amended: the claim's bound fails under interleaved timer
firings (see the counterexample), and a `uint8` TTL can in principle
wrap.  What holds is: (a) across any single event step — a
`process_packet` call, a reply, or a timer firing — `ttl` never
decreases while it is below 255; and (b) on a freshly created engine
with `1 ≤ ttl_max ≤ 254`, over any sequence of `process_packet` calls
with no timer firings, `ttl` never exceeds `ttl_max + 1`. -/
theorem c2_ttl_monotone_and_bounded :
    (∀ (s : RunSt) (ev : Ev), s.e.ttl ≤ 254 → s.e.ttl ≤ (stepEv s ev).e.ttl)
    ∧ (∀ (tm rm mf : Nat) (ps : List GoPacket), 1 ≤ tm → tm ≤ 254 →
        (runPackets (NewNFQueueTraceroute tm rm mf) ps).ttl ≤ tm + 1) := by
  constructor
  · exact stepEv_ttl_mono
  · intro tm rm mf ps h1 h2
    have hinv : C2Inv (NewNFQueueTraceroute tm rm mf) := by
      refine ⟨rfl, h1, h2, by simp [NewNFQueueTraceroute], fun _ => ⟨rfl, rfl, fun hx => ?_⟩⟩
      simp [NewNFQueueTraceroute] at hx
      omega
    have hrun := C2Inv_runPackets ps _ hinv
    have hmax := runPackets_ttlMax ps (NewNFQueueTraceroute tm rm mf)
    have hbound := hrun.2.2.2.1
    rw [hmax] at hbound
    simpa [NewNFQueueTraceroute] using hbound

/-- Witness for `c2_ttl_monotone_and_bounded` at concrete inputs. -/
theorem c2_ttl_monotone_and_bounded_witness :
    ((freshRun 3 2 1).e.ttl ≤ 254
      ∧ (freshRun 3 2 1).e.ttl ≤ (stepEv (freshRun 3 2 1) (Ev.pkt samplePacket)).e.ttl)
    ∧ ((1 : Nat) ≤ 3 ∧ (3 : Nat) ≤ 254
      ∧ (runPackets (NewNFQueueTraceroute 3 2 1) [samplePacket, samplePacket]).ttl ≤ 3 + 1) :=
  ⟨⟨by decide,
    c2_ttl_monotone_and_bounded.1 (freshRun 3 2 1) (Ev.pkt samplePacket) (by decide)⟩,
   ⟨by decide, by decide,
    c2_ttl_monotone_and_bounded.2 3 2 1 [samplePacket, samplePacket] (by decide) (by decide)⟩⟩

/-- Claim C6 amended: on the mangle path, when serialization of the
mangled packet fails, the engine does not emit ACCEPT: it emits the
replacement verdict `SetModifiedVerdict(NF_REPEAT, nil)` carrying the
nil bytes.  Stated for every live engine at a mangle candidate whose
termination check does not fire. -/
theorem c6_serialize_failure_emits_repeat_nil (n : NFQueueTraceroute) (p : GoPacket)
    (hs : n.stopped = false) (hf : n.mangleFreq ≠ 0) (hm : n.count % n.mangleFreq = 0)
    (hw : n.timer = TimerState.waiting) (hc : n.chansClosed = false)
    (hser : serializeWithTTL p ((n.mangleCandidateState).ttl) = none)
    (hterm : ¬ ((n.mangleCandidateState).ttlMax < (n.mangleCandidateState).ttl
      ∧ (n.mangleCandidateState).ttlRepeat + 1 = (n.mangleCandidateState).ttlRepeatMax)) :
    (n.processPacket p).snd.fst = some (Verdict.nfRepeat none)
    ∧ some (Verdict.nfRepeat none) ≠ some Verdict.accept := by
  refine ⟨?_, by simp⟩
  have hnof : ((n.bumpRepeat).mangleStep).snd = none := by
    rcases mangleStep_fst (n.bumpRepeat) with hcs | hcs <;>
    · simp only [NFQueueTraceroute.mangleStep] at hcs ⊢
      split_ifs <;>
        simp_all [NFQueueTraceroute.restartTimerSend, NFQueueTraceroute.advanceTTL,
          NFQueueTraceroute.bumpRepeat, hc, hw]
  have hmv : ((n.mangleCandidateState).mangleVerdict p).snd.fst
      = some (Verdict.nfRepeat (serializeWithTTL p ((n.mangleCandidateState).ttl))) := by
    simp only [NFQueueTraceroute.mangleVerdict, if_neg hterm]
  simp only [NFQueueTraceroute.processPacket, hs, hf, hm]
  simp only [NFQueueTraceroute.mangleCandidateState] at hmv hser
  simp [hnof, hmv, hser]

/-- Witness for `c6_serialize_failure_emits_repeat_nil`: a fresh
engine handed a packet with no layers. -/
theorem c6_serialize_failure_emits_repeat_nil_witness :
    ((NewNFQueueTraceroute 3 2 1).stopped = false
      ∧ (NewNFQueueTraceroute 3 2 1).mangleFreq ≠ 0
      ∧ (NewNFQueueTraceroute 3 2 1).count % (NewNFQueueTraceroute 3 2 1).mangleFreq = 0
      ∧ serializeWithTTL noLayersPacket
          (((NewNFQueueTraceroute 3 2 1).mangleCandidateState).ttl) = none)
    ∧ (((NewNFQueueTraceroute 3 2 1).processPacket noLayersPacket).snd.fst
        = some (Verdict.nfRepeat none)
      ∧ some (Verdict.nfRepeat none) ≠ some Verdict.accept) :=
  ⟨⟨by decide, by decide, by decide, by decide⟩,
   c6_serialize_failure_emits_repeat_nil (NewNFQueueTraceroute 3 2 1) noLayersPacket
     (by decide) (by decide) (by decide) (by decide) (by decide) (by decide) (by decide)⟩

/-- Claim C7: for every ICMP time-exceeded payload of at least 8 bytes
whose IPv4+TCP decode fails or is incomplete (the decoding loop
reports an error), `getPacketFlow` yields a flow key whose TCP
endpoint pair is built from the payload's last 8 bytes read as a
TCP-header prefix — source port from its bytes 0..2 big-endian,
destination port from its bytes 2..4 big-endian — and whose IPv4
endpoint pair comes from whatever IPv4 header was parsed from the
head of the payload, with zero (nil) endpoints when none was. -/
theorem c7_icmp_fallback (payload : List Nat)
    (hlen : 8 ≤ payload.length)
    (herr : (decodeLayersIPv4TCP payload).err = true) :
    getPacketFlow payload = Except.ok
      { net := networkFlowOfOpt (decodeLayersIPv4TCP payload).ip
        trans :=
          { epType := endpointTCPPort
            src := portBytes ((payload.drop (payload.length - 8)).getD 0 0 * 256
              + (payload.drop (payload.length - 8)).getD 1 0)
            dst := portBytes ((payload.drop (payload.length - 8)).getD 2 0 * 256
              + (payload.drop (payload.length - 8)).getD 3 0) } } := by
  have h8 : ¬ payload.length < 8 := Nat.not_lt.mpr hlen
  simp [getPacketFlow, herr, h8, getTCPFlowFromTCPHead]

/-- Witness for `c7_icmp_fallback` at the RFC 792 short payload: the
inner IPv4 header decodes, the 8 remaining TCP bytes do not, and the
resulting key carries the inner IPv4 endpoints and ports 8080/443. -/
theorem c7_icmp_fallback_witness :
    (8 ≤ c7Payload.length ∧ (decodeLayersIPv4TCP c7Payload).err = true)
    ∧ getPacketFlow c7Payload = Except.ok
      { net := networkFlowOfOpt (decodeLayersIPv4TCP c7Payload).ip
        trans :=
          { epType := endpointTCPPort
            src := portBytes ((c7Payload.drop (c7Payload.length - 8)).getD 0 0 * 256
              + (c7Payload.drop (c7Payload.length - 8)).getD 1 0)
            dst := portBytes ((c7Payload.drop (c7Payload.length - 8)).getD 2 0 * 256
              + (c7Payload.drop (c7Payload.length - 8)).getD 3 0) } } :=
  ⟨⟨by decide, by decide⟩, c7_icmp_fallback c7Payload (by decide) (by decide)⟩

/-- The flow key of the RFC 792 short payload, concretely: the inner
IPv4 endpoints 10.0.0.9 → 10.0.0.7 and the TCP ports 8080 → 443 of
the truncated TCP head. -/
theorem c7Payload_flow_value :
    getPacketFlow c7Payload = Except.ok
      { net := { epType := endpointIPv4, src := [10, 0, 0, 9], dst := [10, 0, 0, 7] }
        trans := { epType := endpointTCPPort, src := portBytes 8080, dst := portBytes 443 } } :=
  rfl

/-- Claim C10 amended: for every nonempty byte sequence shorter than
8 bytes the IPv4+TCP decode fails (an IPv4 header needs at least 20
bytes), and the flow-key extraction does not complete: the fallback
slice `packet[len(packet)-8:]` is out of bounds and the extraction
aborts with a Go slice-bounds panic instead of returning a flow key.
(The empty sequence is the one short input on which the decoding loop
reports no error; it returns the zero-valued key without touching the
fallback slice.) -/
theorem c10_short_failing_input_aborts (bs : List Nat) (hne : bs ≠ [])
    (hlen : bs.length < 8) :
    (decodeLayersIPv4TCP bs).err = true
    ∧ getPacketFlow bs = Except.error GoPanicKind.sliceOutOfRange := by
  have h20 : bs.length < 20 := by omega
  have hd : decodeIPv4 bs = none := by simp [decodeIPv4, h20]
  have hie : bs.isEmpty = false := by
    cases bs with
    | nil => exact absurd rfl hne
    | cons a l => rfl
  have herr : decodeLayersIPv4TCP bs = { ip := none, tcp := none, err := true } := by
    simp [decodeLayersIPv4TCP, hie, hd]
  refine ⟨by rw [herr], ?_⟩
  simp [getPacketFlow, herr, hlen]

/-- Witness for `c10_short_failing_input_aborts` at the two-byte
input. -/
theorem c10_short_failing_input_aborts_witness :
    (([1, 2] : List Nat) ≠ [] ∧ ([1, 2] : List Nat).length < 8)
    ∧ ((decodeLayersIPv4TCP [1, 2]).err = true
      ∧ getPacketFlow [1, 2] = Except.error GoPanicKind.sliceOutOfRange) :=
  ⟨⟨by decide, by decide⟩, c10_short_failing_input_aborts [1, 2] (by decide) (by decide)⟩
